import Mathlib

/-!
Shallow embedding of `src/trigger-workflow-api.py`, a script that dispatches
a GitHub Actions workflow via one HTTP POST and maps the response status code
to a process exit status.

The model is an event trace: each `print(...)` in the script becomes an
`Event.print` carrying the exact line, and the single `requests.post(...)`
call becomes an `Event.post` carrying the full request (method, URL, headers,
JSON payload).  The response of the server is an input to the model, since the
behaviour of the script after the call is a pure function of it.
-/

namespace TriggerWorkflow

/-- Hard-coded configuration constant `OWNER` from the script. -/
def OWNER : String := "cedyson8-creator"

/-- Hard-coded configuration constant `REPO` from the script. -/
def REPO : String := "traffic-booster-app"

/-- Hard-coded configuration constant `WORKFLOW_FILE` from the script. -/
def WORKFLOW_FILE : String := "build-release.yml"

/-- Hard-coded configuration constant `BRANCH` from the script. -/
def BRANCH : String := "main"

/-- The HTTP response the server returns to the single POST: a numeric
status code and a raw body (`response.status_code` and `response.text`). -/
structure Response where
  status_code : Int
  text : String
deriving DecidableEq

/-- The JSON payload sent with the POST: `ref` and the nested
`inputs.version` field. -/
structure Payload where
  ref : String
  inputs_version : String
deriving DecidableEq

/-- The outgoing HTTP request as the script constructs it. -/
structure Request where
  method : String
  url : String
  headers : List (String × String)
  payload : Payload
deriving DecidableEq

/-- An observable step of the script: printing one line to stdout, or
issuing one HTTP request. -/
inductive Event where
  | print (line : String)
  | post (req : Request)
deriving DecidableEq

/-- The request built inside `trigger_workflow`: POST to the dispatches URL
with the three headers and the fixed JSON payload.  Only the token varies,
and only inside the `Authorization` header. -/
def dispatchRequest (token : String) : Request :=
  { method := "POST"
    url := "https://api.github.com/repos/" ++ OWNER ++ "/" ++ REPO ++
      "/actions/workflows/" ++ WORKFLOW_FILE ++ "/dispatches"
    headers := [("Accept", "application/vnd.github+json"),
                ("Authorization", "Bearer " ++ token),
                ("X-GitHub-Api-Version", "2022-11-28")]
    payload := { ref := BRANCH, inputs_version := "1.0.0" } }

/-- The status-code dispatch at the end of `trigger_workflow`: the events
printed after the response arrives, paired with the boolean return value.
Mirrors the `if / elif / elif / else` chain on `response.status_code`. -/
def responseEvents (response : Response) : List Event × Bool :=
  if response.status_code = 204 then
    ([Event.print "✅ Workflow triggered successfully!",
      Event.print ("📊 Check progress at: https://github.com/" ++ OWNER ++
        "/" ++ REPO ++ "/actions")], true)
  else if response.status_code = 401 then
    ([Event.print "❌ Authentication failed. Invalid or expired token."], false)
  else if response.status_code = 404 then
    ([Event.print "❌ Workflow not found. Make sure the workflow file exists."], false)
  else
    ([Event.print ("❌ Error: " ++ toString response.status_code),
      Event.print response.text], false)

/-- Result of running `trigger_workflow`: the full event trace and the
boolean it returns. -/
structure WorkflowResult where
  trace : List Event
  success : Bool

/-- Embedding of `trigger_workflow(token)`: print three status lines, issue
the single POST, then branch on the status code of the response. -/
def trigger_workflow (token : String) (response : Response) : WorkflowResult :=
  let tail := responseEvents response
  { trace := [Event.print ("🔄 Triggering workflow: " ++ WORKFLOW_FILE),
              Event.print ("📍 Repository: " ++ OWNER ++ "/" ++ REPO),
              Event.print ("🌿 Branch: " ++ BRANCH),
              Event.post (dispatchRequest token)] ++ tail.1
    success := tail.2 }

/-- Python truthiness test `not token` applied to the result of
`os.getenv("GITHUB_TOKEN")`: true when the variable is unset (`None`) or
set to the empty string. -/
def tokenFalsy : Option String → Bool
  | none => true
  | some t => t = ""

/-- The instructional lines printed when the token is missing. -/
def missingTokenLines : List String :=
  ["❌ GITHUB_TOKEN environment variable not set",
   "📝 Instructions:",
   "1. Create a Personal Access Token at: https://github.com/settings/tokens",
   "2. Grant \x27actions\x27 scope",
   "3. Run: export GITHUB_TOKEN=\x27your_token_here\x27",
   "4. Then run this script again"]

/-- Result of one whole process invocation: the event trace and the exit
status passed to `sys.exit`. -/
structure ProcessRun where
  trace : List Event
  exit_code : Nat

/-- Embedding of the `__main__` block: read `GITHUB_TOKEN` from the
environment; if it is unset or empty print the instructions and exit 1,
otherwise run `trigger_workflow` and exit 0 on `True`, 1 on `False`. -/
def main (github_token : Option String) (response : Response) : ProcessRun :=
  if tokenFalsy github_token then
    { trace := missingTokenLines.map Event.print, exit_code := 1 }
  else
    let r := trigger_workflow (github_token.getD "") response
    { trace := r.trace, exit_code := if r.success then 0 else 1 }

/-- The lines printed to stdout during a trace, in order. -/
def printedLines (t : List Event) : List String :=
  t.filterMap fun e => match e with
    | Event.print s => some s
    | Event.post _ => none

/-- The HTTP requests issued during a trace, in order. -/
def postedRequests (t : List Event) : List Request :=
  t.filterMap fun e => match e with
    | Event.print _ => none
    | Event.post r => some r

/-- Helper: whatever the status code, the post-response events contain no
HTTP request: the script only prints after the call returns. -/
theorem postedRequests_responseEvents (r : Response) :
    postedRequests (responseEvents r).1 = [] := by
  unfold responseEvents
  split_ifs <;> rfl

/-- Helper: the lines printed after the response do not depend on the token
at all: `responseEvents` does not take the token as an argument. -/
theorem printedLines_trigger (token : String) (r : Response) :
    printedLines (trigger_workflow token r).trace =
      ["🔄 Triggering workflow: " ++ WORKFLOW_FILE,
       "📍 Repository: " ++ OWNER ++ "/" ++ REPO,
       "🌿 Branch: " ++ BRANCH] ++ printedLines (responseEvents r).1 := by
  simp [trigger_workflow, printedLines]

/-- Claim C1: with GITHUB_TOKEN unset or empty, the program prints exactly
the instructional lines, exits with status 1, and issues no HTTP request. -/
theorem missing_token_no_request (env : Option String) (response : Response)
    (h : env = none ∨ env = some "") :
    printedLines (main env response).trace = missingTokenLines ∧
    (main env response).exit_code = 1 ∧
    postedRequests (main env response).trace = [] := by
  rcases h with h | h <;> subst h <;>
    refine ⟨?_, rfl, ?_⟩ <;>
    simp [main, tokenFalsy, printedLines, postedRequests, missingTokenLines]

/-- Witness for C1 at the concrete input: variable unset, server would have
answered 204. -/
theorem missing_token_no_request_witness :
    (main none ⟨204, ""⟩).exit_code = 1 ∧
    postedRequests (main none ⟨204, ""⟩).trace = [] := by
  have h := missing_token_no_request none ⟨204, ""⟩ (Or.inl rfl)
  exact ⟨h.2.1, h.2.2⟩

/-- Claim C2: with a non-empty token, the exit status is 0 exactly when the
status code is 204; `trigger_workflow` returns `true` exactly then too. -/
theorem exit_zero_iff_204 (token : String) (response : Response)
    (h : token ≠ "") :
    ((main (some token) response).exit_code = 0 ↔ response.status_code = 204) ∧
    ((trigger_workflow token response).success = true ↔ response.status_code = 204) ∧
    ((main (some token) response).exit_code = 0 ↔
      (trigger_workflow token response).success = true) := by
  obtain ⟨code, body⟩ := response
  simp only [main, tokenFalsy, trigger_workflow, responseEvents]
  split_ifs <;> simp_all

/-- Witness for C2 at token "t" and a 204 response. -/
theorem exit_zero_iff_204_witness :
    ("t" : String) ≠ "" ∧
    ((main (some "t") ⟨204, ""⟩).exit_code = 0 ↔ (204 : Int) = 204) :=
  ⟨by decide, (exit_zero_iff_204 "t" ⟨204, ""⟩ (by decide)).1⟩

/-- Claim C3: with a non-empty token, the one outgoing request is a POST to
the fixed dispatches URL with the three required headers and the fixed JSON
payload; only the Authorization header mentions the token. -/
theorem single_request_shape (token : String) (response : Response)
    (h : token ≠ "") :
    postedRequests (main (some token) response).trace =
      [{ method := "POST"
         url := "https://api.github.com/repos/cedyson8-creator/traffic-booster-app/actions/workflows/build-release.yml/dispatches"
         headers := [("Accept", "application/vnd.github+json"),
                     ("Authorization", "Bearer " ++ token),
                     ("X-GitHub-Api-Version", "2022-11-28")]
         payload := { ref := "main", inputs_version := "1.0.0" } }] := by
  have ht : tokenFalsy (some token) = false := by simp [tokenFalsy, h]
  have hpost := postedRequests_responseEvents response
  simp only [postedRequests] at hpost
  simp only [main, ht, Bool.false_eq_true, if_false, trigger_workflow, postedRequests,
    List.filterMap_append, hpost]
  simp [dispatchRequest, OWNER, REPO, WORKFLOW_FILE, BRANCH]

/-- Witness for C3 at token "t" and a 500 response. -/
theorem single_request_shape_witness :
    ("t" : String) ≠ "" ∧
    postedRequests (main (some "t") ⟨500, "oops"⟩).trace =
      [{ method := "POST"
         url := "https://api.github.com/repos/cedyson8-creator/traffic-booster-app/actions/workflows/build-release.yml/dispatches"
         headers := [("Accept", "application/vnd.github+json"),
                     ("Authorization", "Bearer " ++ "t"),
                     ("X-GitHub-Api-Version", "2022-11-28")]
         payload := { ref := "main", inputs_version := "1.0.0" } }] :=
  ⟨by decide, single_request_shape "t" ⟨500, "oops"⟩ (by decide)⟩

/-- Helper: with a non-empty token, the main block reduces to running
`trigger_workflow` and converting its boolean to an exit status. -/
theorem main_nonempty_token (token : String) (response : Response)
    (h : token ≠ "") :
    main (some token) response =
      { trace := (trigger_workflow token response).trace,
        exit_code := if (trigger_workflow token response).success then 0 else 1 } := by
  simp [main, tokenFalsy, h]

/-- Claim C4: with a non-empty token and a 204 response, the program prints
the success message and a line containing the literal owner/repo path, and
exits with status 0. -/
theorem status_204_success (token : String) (response : Response)
    (h : token ≠ "") (h204 : response.status_code = 204) :
    "✅ Workflow triggered successfully!" ∈
      printedLines (main (some token) response).trace ∧
    (∃ line ∈ printedLines (main (some token) response).trace,
      List.IsInfix (OWNER ++ "/" ++ REPO).toList line.toList) ∧
    (main (some token) response).exit_code = 0 := by
  rw [main_nonempty_token _ _ h]
  obtain ⟨code, body⟩ := response
  simp only at h204
  subst h204
  refine ⟨?_, ⟨"📊 Check progress at: https://github.com/" ++ OWNER ++ "/" ++
    REPO ++ "/actions", ?_, ?_⟩, ?_⟩
  · simp [trigger_workflow, responseEvents, printedLines]
  · simp [trigger_workflow, responseEvents, printedLines]
  · decide
  · simp [trigger_workflow, responseEvents]

/-- Witness for C4 at token "t" and response 204. -/
theorem status_204_success_witness :
    ("t" : String) ≠ "" ∧ (⟨204, ""⟩ : Response).status_code = 204 ∧
    (main (some "t") ⟨204, ""⟩).exit_code = 0 :=
  ⟨by decide, rfl, (status_204_success "t" ⟨204, ""⟩ (by decide) rfl).2.2⟩

/-- Claim C5: with a non-empty token and a 401 response, the program prints
the authentication-failure message and exits with status 1. -/
theorem status_401_auth_failed (token : String) (response : Response)
    (h : token ≠ "") (h401 : response.status_code = 401) :
    "❌ Authentication failed. Invalid or expired token." ∈
      printedLines (main (some token) response).trace ∧
    (main (some token) response).exit_code = 1 := by
  rw [main_nonempty_token _ _ h]
  obtain ⟨code, body⟩ := response
  simp only at h401
  subst h401
  constructor
  · simp [trigger_workflow, responseEvents, printedLines]
  · simp [trigger_workflow, responseEvents]

/-- Witness for C5 at token "t" and response 401. -/
theorem status_401_auth_failed_witness :
    ("t" : String) ≠ "" ∧ (⟨401, ""⟩ : Response).status_code = 401 ∧
    (main (some "t") ⟨401, ""⟩).exit_code = 1 :=
  ⟨by decide, rfl, (status_401_auth_failed "t" ⟨401, ""⟩ (by decide) rfl).2⟩

/-- Claim C6: with a non-empty token and a 404 response, the program prints
the workflow-not-found message and exits with status 1. -/
theorem status_404_not_found (token : String) (response : Response)
    (h : token ≠ "") (h404 : response.status_code = 404) :
    "❌ Workflow not found. Make sure the workflow file exists." ∈
      printedLines (main (some token) response).trace ∧
    (main (some token) response).exit_code = 1 := by
  rw [main_nonempty_token _ _ h]
  obtain ⟨code, body⟩ := response
  simp only at h404
  subst h404
  constructor
  · simp [trigger_workflow, responseEvents, printedLines]
  · simp [trigger_workflow, responseEvents]

/-- Witness for C6 at token "t" and response 404. -/
theorem status_404_not_found_witness :
    ("t" : String) ≠ "" ∧ (⟨404, ""⟩ : Response).status_code = 404 ∧
    (main (some "t") ⟨404, ""⟩).exit_code = 1 :=
  ⟨by decide, rfl, (status_404_not_found "t" ⟨404, ""⟩ (by decide) rfl).2⟩

/-- Claim C7: with a non-empty token and any status code other than 204,
401, 404, the program prints the numeric code and the raw response body
verbatim, and exits with status 1. -/
theorem status_other_failure (token : String) (response : Response)
    (h : token ≠ "") (h1 : response.status_code ≠ 204)
    (h2 : response.status_code ≠ 401) (h3 : response.status_code ≠ 404) :
    ("❌ Error: " ++ toString response.status_code) ∈
      printedLines (main (some token) response).trace ∧
    response.text ∈ printedLines (main (some token) response).trace ∧
    (main (some token) response).exit_code = 1 := by
  rw [main_nonempty_token _ _ h]
  obtain ⟨code, body⟩ := response
  simp only at h1 h2 h3
  refine ⟨?_, ?_, ?_⟩
  · simp [trigger_workflow, responseEvents, printedLines, h1, h2, h3]
  · simp [trigger_workflow, responseEvents, printedLines, h1, h2, h3]
  · simp [trigger_workflow, responseEvents, h1, h2, h3]

/-- Witness for C7 at token "t" and a 500 response with body
"internal error". -/
theorem status_other_failure_witness :
    ("t" : String) ≠ "" ∧ ((500 : Int) ≠ 204 ∧ (500 : Int) ≠ 401 ∧ (500 : Int) ≠ 404) ∧
    ("internal error" ∈
      printedLines (main (some "t") ⟨500, "internal error"⟩).trace ∧
    (main (some "t") ⟨500, "internal error"⟩).exit_code = 1) :=
  ⟨by decide, ⟨by decide, by decide, by decide⟩,
    (status_other_failure "t" ⟨500, "internal error"⟩ (by decide) (by decide)
      (by decide) (by decide)).2⟩

/-- Claim C8: with a non-empty token, exactly one HTTP request is issued in
the whole run, and the first four events of the trace are three printed
status lines (workflow, repository, branch) followed by the POST. -/
theorem single_post_after_three_prints (token : String) (response : Response)
    (h : token ≠ "") :
    postedRequests (main (some token) response).trace = [dispatchRequest token] ∧
    (main (some token) response).trace.take 4 =
      [Event.print ("🔄 Triggering workflow: " ++ WORKFLOW_FILE),
       Event.print ("📍 Repository: " ++ OWNER ++ "/" ++ REPO),
       Event.print ("🌿 Branch: " ++ BRANCH),
       Event.post (dispatchRequest token)] := by
  rw [main_nonempty_token _ _ h]
  have hpost := postedRequests_responseEvents response
  simp only [postedRequests] at hpost
  constructor
  · simp only [trigger_workflow, postedRequests, List.filterMap_append, hpost]
    rfl
  · simp [trigger_workflow]

/-- Witness for C8 at token "t" and a 204 response. -/
theorem single_post_after_three_prints_witness :
    ("t" : String) ≠ "" ∧
    postedRequests (main (some "t") ⟨204, ""⟩).trace = [dispatchRequest "t"] :=
  ⟨by decide, (single_post_after_three_prints "t" ⟨204, ""⟩ (by decide)).1⟩

/-- Claim C9: noninterference of the token with stdout — for any two
non-empty tokens and the same response, the printed lines and the exit
status are identical; the token can only influence the request itself. -/
theorem token_noninterference (t1 t2 : String) (response : Response)
    (h1 : t1 ≠ "") (h2 : t2 ≠ "") :
    printedLines (main (some t1) response).trace =
      printedLines (main (some t2) response).trace ∧
    (main (some t1) response).exit_code = (main (some t2) response).exit_code := by
  rw [main_nonempty_token _ _ h1, main_nonempty_token _ _ h2]
  constructor
  · rw [printedLines_trigger, printedLines_trigger]
  · simp [trigger_workflow]

/-- Witness for C9 at tokens "a" and "b" and a 500 response. -/
theorem token_noninterference_witness :
    ("a" : String) ≠ "" ∧ ("b" : String) ≠ "" ∧
    printedLines (main (some "a") ⟨500, "x"⟩).trace =
      printedLines (main (some "b") ⟨500, "x"⟩).trace :=
  ⟨by decide, by decide, (token_noninterference "a" "b" ⟨500, "x"⟩ (by decide)
    (by decide)).1⟩

/-- Claim C10: the status-code dispatch is total and exhaustive — for every
integer status code and every body, `trigger_workflow` returns a boolean,
true exactly on 204; the final else branch covers everything else. -/
theorem status_dispatch_total (token : String) (code : Int) (body : String) :
    (trigger_workflow token ⟨code, body⟩).success = decide (code = 204) := by
  simp only [trigger_workflow, responseEvents]
  split_ifs <;> simp_all

end TriggerWorkflow
